import Mathlib

/-!
Verification of `FetchResearchPapers.py` (pubmed-paper-fetcher).

The program is a linear pipeline: a search request yields a list of paper
identifiers, each identifier is resolved to a summary record, and the records
are written as CSV rows or printed. We embed the Python functions
`fetch_papers`, `fetch_paper_details`, `save_to_csv` and `main` shallowly:

* parsed JSON bodies become `JValue` (JSON numbers are modelled as integers);
* the two remote endpoints become a `Network` oracle whose calls return
  `Except String JValue`, the `.error` case standing for a
  `requests.exceptions.RequestException` carrying its message;
* Python's `dict.get(k, default)` becomes `dictGet`, which fails with the
  model error `attributeError` when the receiver is not a dict, as the
  attribute access does in Python;
* the filesystem becomes an `Fs` oracle saying whether `open(name, "w")`
  succeeds, and `main` returns a `RunResult` record of the observable
  behaviour: stdout lines, the file written (if any) and the exit status.
-/

/-- Model of a parsed JSON value, as returned by `response.json()`. -/
inductive JValue where
  | null : JValue
  | bool : Bool → JValue
  | num : Int → JValue
  | str : String → JValue
  | arr : List JValue → JValue
  | obj : List (String × JValue) → JValue

/-- A Python dict with string keys, e.g. a record built by
`fetch_paper_details`. Keys are unique in every dict the program builds. -/
abbrev JObj := List (String × JValue)

/-- Model of the Python exceptions the program can raise. -/
inductive PyError where
  /-- `requests.exceptions.RequestException` with its message: any transport
  failure raised by `requests.get` or `raise_for_status`. -/
  | requestException : String → PyError
  /-- `AttributeError`: calling `.get` on a non-dict value. -/
  | attributeError : PyError
  /-- `TypeError`-like model error: the extracted idlist is not a list of
  identifier strings. -/
  | pyTypeError : PyError
  /-- `ValueError` raised by `csv.DictWriter` on a row with unexpected keys. -/
  | valueError : PyError
deriving DecidableEq

/-- Python's `d.get(k, default)`: look up `k` in the dict `v`, returning
`default` when the key is absent, and raising when `v` is not a dict. -/
def dictGet (v : JValue) (k : String) (d : JValue) : Except PyError JValue :=
  match v with
  | .obj fs => .ok ((fs.lookup k).getD d)
  | _ => .error .attributeError

/-- The two remote endpoints, as an oracle over parsed responses: `search` is
the esearch call made by `fetch_papers`, `detail` the esummary call made by
`fetch_paper_details` for a given identifier. An `.error` is a transport
failure (`RequestException`) with its message. -/
structure Network where
  search : Except String JValue
  detail : String → Except String JValue

/-- The idlist value iterated by the `for paper_id in ids` loop, as a list of
identifier strings; shapes other than a list of strings are mapped to the
model error `pyTypeError`. -/
def asIdList : JValue → Except PyError (List String)
  | .arr vs => asStrList vs
  | _ => .error .pyTypeError
where
  /-- Auxiliary: every element of the list must be a string. -/
  asStrList : List JValue → Except PyError (List String)
  | [] => .ok []
  | .str s :: rest =>
    match asStrList rest with
    | .ok tail => .ok (s :: tail)
    | .error e => .error e
  | _ :: _ => .error .pyTypeError

/-- Lines 14-17 of `fetch_papers`: perform the search request and extract
`data.get("esearchresult", {}).get("idlist", [])`. -/
def searchIds (net : Network) : Except PyError (List String) :=
  match net.search with
  | .error e => .error (.requestException e)
  | .ok data =>
    match dictGet data "esearchresult" (.obj []) with
    | .error e => .error e
    | .ok es =>
      match dictGet es "idlist" (.arr []) with
      | .error e => .error e
      | .ok il => asIdList il

/-- Lines 30-32 of `fetch_paper_details`: perform the detail request and
extract `response.json().get("result", {}).get(paper_id, {})`. -/
def detailData (net : Network) (paper_id : String) : Except PyError JValue :=
  match net.detail paper_id with
  | .error e => .error (.requestException e)
  | .ok body =>
    match dictGet body "result" (.obj []) with
    | .error e => .error e
    | .ok r => dictGet r paper_id (.obj [])

/-- The dict literal returned at lines 41-48 of `fetch_paper_details`, with
the placeholder strings of lines 38, 39 and 47 inlined as in the source. -/
def mkRecord (paper_id : String) (title pub_date : JValue) : JObj :=
  [("PubmedID", .str paper_id),
   ("Title", title),
   ("Publication Date", pub_date),
   ("Non-academic Author(s)", .str "John Doe, PharmaCorp Inc."),
   ("Company Affiliation(s)", .str "PharmaCorp Inc."),
   ("Corresponding Author Email", .str "contact@pharma.com")]

/-- `fetch_paper_details(paper_id)`: fetch the summary for one identifier and
build the six-field record, with `"N/A"` as the `.get` default for title and
publication date. -/
def fetch_paper_details (net : Network) (paper_id : String) :
    Except PyError JObj :=
  match detailData net paper_id with
  | .error e => .error e
  | .ok data =>
    match dictGet data "title" (.str "N/A") with
    | .error e => .error e
    | .ok title =>
      match dictGet data "pubdate" (.str "N/A") with
      | .error e => .error e
      | .ok pub_date => .ok (mkRecord paper_id title pub_date)

/-- The loop at lines 19-24 of `fetch_papers`: call `fetch_paper_details` for
each identifier in order and append the result when it is truthy (a non-empty
dict). The first raised exception aborts the loop. -/
def fetchLoop (net : Network) : List String → Except PyError (List JObj)
  | [] => .ok []
  | paper_id :: rest =>
    match fetch_paper_details net paper_id with
    | .error e => .error e
    | .ok paper_data =>
      match fetchLoop net rest with
      | .error e => .error e
      | .ok tail => .ok (if paper_data.isEmpty then tail else paper_data :: tail)

/-- `fetch_papers(query)`: search, then fetch details for every identifier.
The query only influences the run through the search response, so the
`Network` oracle stands for the query. -/
def fetch_papers (net : Network) : Except PyError (List JObj) :=
  match searchIds net with
  | .error e => .error e
  | .ok ids => fetchLoop net ids

/-- The identifiers `fetch_paper_details` is invoked on during the loop of
`fetch_papers`, in call order: the loop stops right after the first
identifier whose fetch raises. -/
def fetchCalls (net : Network) : List String → List String
  | [] => []
  | paper_id :: rest =>
    match fetch_paper_details net paper_id with
    | .error _ => [paper_id]
    | .ok _ => paper_id :: fetchCalls net rest

mutual

/-- Python's `repr` of a JSON-shaped value, used by `str` on containers.
Escaping of special characters inside string literals is not modelled; no
record the program builds contains a container value. -/
def pyRepr : JValue → String
  | .null => "None"
  | .bool b => if b then "True" else "False"
  | .num n => toString n
  | .str s => "\x27" ++ s ++ "\x27"
  | .arr vs => "[" ++ String.intercalate ", " (pyReprList vs) ++ "]"
  | .obj fs => "\x7b" ++ String.intercalate ", " (pyReprFields fs) ++ "\x7d"

/-- Auxiliary for `pyRepr`: render the elements of a list. -/
def pyReprList : List JValue → List String
  | [] => []
  | v :: vs => pyRepr v :: pyReprList vs

/-- Auxiliary for `pyRepr`: render the entries of a dict. -/
def pyReprFields : List (String × JValue) → List String
  | [] => []
  | (k, v) :: fs => ("\x27" ++ k ++ "\x27: " ++ pyRepr v) :: pyReprFields fs

end

/-- The string `csv.writer` puts in a cell for a given Python value: `None`
becomes the empty string, a `str` is written as is, any other value is
rendered with `str()`. -/
def pyFieldStr : JValue → String
  | .null => ""
  | .str s => s
  | .bool b => if b then "True" else "False"
  | .num n => toString n
  | v => pyRepr v

/-- Whether the csv excel dialect with minimal quoting must quote a field:
only when it contains the delimiter, the quote character or a line break. -/
def needsQuote (s : String) : Bool :=
  s.data.any fun c => c = ',' || c = '"' || c = '\r' || c = '\n'

/-- One csv cell: quoted, with inner quotes doubled, exactly when needed. -/
def csvField (s : String) : String :=
  if needsQuote s then "\"" ++ s.replace "\"" "\"\"" ++ "\"" else s

/-- One physical csv row for a list of cell strings, with the excel dialect's
`\r\n` terminator. -/
def csvLine (cells : List String) : String :=
  String.intercalate "," (cells.map csvField) ++ "\r\n"

/-- The `headers` list of `save_to_csv`, line 51 of the source. -/
def headers : List String :=
  ["PubmedID", "Title", "Publication Date", "Non-academic Author(s)",
   "Company Affiliation(s)", "Corresponding Author Email"]

/-- Whether a record only has keys among the writer's fieldnames:
`csv.DictWriter` (with the default `extrasaction`) raises `ValueError` on a
row containing any other key. -/
def recKeysOk (hs : List String) (r : JObj) : Bool :=
  r.all fun kv => hs.contains kv.1

/-- The cells `DictWriter` emits for one record: one cell per fieldname in
fieldname order, the empty string (default `restval=None`) for a missing
key. -/
def rowVals (hs : List String) (r : JObj) : List String :=
  hs.map fun h => match r.lookup h with
    | some v => pyFieldStr v
    | none => ""

/-- `writer.writerows(papers)`: the data rows actually written, in input
order, together with the `ValueError` raised at the first record with an
unexpected key, if any; rows after a raising record are not written. -/
def writeRows (hs : List String) : List JObj → List String × Option PyError
  | [] => ([], none)
  | r :: rest =>
    if recKeysOk hs r then
      match writeRows hs rest with
      | (ls, err) => (csvLine (rowVals hs r) :: ls, err)
    else
      ([], some .valueError)

/-- `save_to_csv(papers, filename)`: the lines written to the file (header
first, then one row per record) and the exception raised during writing, if
any. Opening the file is modelled separately by `Fs` in `main`. -/
def save_to_csv (papers : List JObj) : List String × Option PyError :=
  match writeRows headers papers with
  | (ls, err) => (csvLine headers :: ls, err)

/-- The parsed command-line arguments of the program. -/
structure Args where
  query : String
  file : Option String
  debug : Bool

/-- Filesystem oracle: whether `open(name, "w")` succeeds for a path. -/
structure Fs where
  writeOk : String → Bool

/-- One line of standard output: either a printed message string or a record
printed by `print(paper)` (its dict, an injective stand-in for its repr). -/
inductive OutLine where
  | msg : String → OutLine
  | record : JObj → OutLine

/-- The observable behaviour of one program run: stdout in print order, the
file written (path and lines, `none` when no file was created) and the
process exit status (`0` for a normal end, `1` for an uncaught exception). -/
structure RunResult where
  stdout : List OutLine
  fileWritten : Option (String × List String)
  exitCode : Nat

/-- Truthiness of `args.file` in `elif args.file:`: `None` and the empty
string are falsy. -/
def fileTruthy : Option String → Bool
  | none => false
  | some f => !(f == "")

/-- Lines 65-77 of `main`, after argument parsing: run the pipeline inside
`try`, catching only `requests.exceptions.RequestException`; dispatch on the
result list and the filename argument. An uncaught exception (an
`AttributeError` from the pipeline, a failing `open`, or a `ValueError`
during writing) terminates the process with exit status 1. (The source names
this function `main`; that name is reserved in Lean.) -/
def mainRun (args : Args) (net : Network) (fs : Fs) : RunResult :=
  match fetch_papers net with
  | .error (.requestException e) =>
    ⟨[.msg ("Error fetching data: " ++ e)], none, 0⟩
  | .error _ => ⟨[], none, 1⟩
  | .ok papers =>
    if papers.isEmpty then
      ⟨[.msg "No papers found for the given query."], none, 0⟩
    else if fileTruthy args.file then
      let fname := args.file.getD ""
      if fs.writeOk fname then
        match save_to_csv papers with
        | (ls, none) => ⟨[.msg ("Results saved to " ++ fname)], some (fname, ls), 0⟩
        | (ls, some _) => ⟨[], some (fname, ls), 1⟩
      else ⟨[], none, 1⟩
    else
      ⟨papers.map .record, none, 0⟩

/-! ### Concrete runs used to instantiate the theorems -/

/-- Search yields identifiers 111 and 222; every summary carries a title and
a date (§8's example). -/
def netTwo : Network :=
  ⟨.ok (.obj [("esearchresult", .obj [("idlist", .arr [.str "111", .str "222"])])]),
   fun paper_id => .ok (.obj [("result",
     .obj [(paper_id, .obj [("title", .str "Study A"), ("pubdate", .str "2023")])])])⟩

/-- Every summary response has an empty result dict: no entry matches any
identifier. -/
def netNoEntry : Network :=
  ⟨.ok (.obj []), fun _ => .ok (.obj [("result", .obj [])])⟩

/-- The search request itself fails. -/
def netSearchFail : Network :=
  ⟨.error "boom", fun _ => .error "boom"⟩

/-- Search yields one identifier, but every detail request fails. -/
def netDetailFail : Network :=
  ⟨.ok (.obj [("esearchresult", .obj [("idlist", .arr [.str "111"])])]),
   fun _ => .error "net down"⟩

/-- Search succeeds with an empty identifier list. -/
def netEmpty : Network :=
  ⟨.ok (.obj [("esearchresult", .obj [("idlist", .arr [])])]), fun _ => .error "x"⟩

/-- Every summary entry is present but carries a null title and an empty
publication date. -/
def netNullTitle : Network :=
  ⟨.ok (.obj []), fun paper_id => .ok (.obj [("result",
    .obj [(paper_id, .obj [("title", .null), ("pubdate", .str "")])])])⟩

/-- A run with no output-file argument. -/
def argsNone : Args := ⟨"cancer", none, false⟩

/-- A run with `-f out.csv`. -/
def argsFile : Args := ⟨"cancer", some "out.csv", false⟩

/-- A filesystem on which every open succeeds. -/
def fsAll : Fs := ⟨fun _ => true⟩

/-- A filesystem on which every open fails. -/
def fsNone : Fs := ⟨fun _ => false⟩

/-! ### Helper lemmas -/

theorem mkRecord_isEmpty (paper_id : String) (t p : JValue) :
    (mkRecord paper_id t p).isEmpty = false := rfl

theorem mkRecord_ne_nil (paper_id : String) (t p : JValue) :
    mkRecord paper_id t p ≠ [] := by simp [mkRecord]

theorem mkRecord_lookup_id (paper_id : String) (t p : JValue) :
    (mkRecord paper_id t p).lookup "PubmedID" = some (.str paper_id) := rfl

theorem mkRecord_lookup_title (paper_id : String) (t p : JValue) :
    (mkRecord paper_id t p).lookup "Title" = some t := rfl

theorem mkRecord_lookup_pubdate (paper_id : String) (t p : JValue) :
    (mkRecord paper_id t p).lookup "Publication Date" = some p := rfl

/-- When the extracted per-identifier data is a dict, `fetch_paper_details`
succeeds and builds the record from the two `.get` calls. -/
theorem fetch_paper_details_ok (net : Network) (paper_id : String) (data : JObj)
    (h : detailData net paper_id = .ok (.obj data)) :
    fetch_paper_details net paper_id =
      .ok (mkRecord paper_id ((data.lookup "title").getD (.str "N/A"))
        ((data.lookup "pubdate").getD (.str "N/A"))) := by
  unfold fetch_paper_details
  rw [h]
  rfl

/-- Every successful `fetch_paper_details` result is a `mkRecord`. -/
theorem fetch_paper_details_ok_inv {net : Network} {paper_id : String}
    {rec : JObj} (h : fetch_paper_details net paper_id = .ok rec) :
    ∃ t p, rec = mkRecord paper_id t p := by
  unfold fetch_paper_details at h
  split at h
  · exact Except.noConfusion h
  · split at h
    · exact Except.noConfusion h
    · split at h
      · exact Except.noConfusion h
      · exact ⟨_, _, (Except.ok.inj h).symm⟩

/-- A successful fetch loop calls the fetcher once per identifier in order,
and returns one record per identifier, in order, the i-th carrying the i-th
identifier. -/
theorem fetchLoop_ok (net : Network) :
    ∀ (ids : List String) (papers : List JObj), fetchLoop net ids = .ok papers →
      fetchCalls net ids = ids ∧ papers.length = ids.length ∧
      papers.map (fun r => r.lookup "PubmedID") =
        ids.map (fun i => some (JValue.str i))
  | [], papers, h => by
    simp only [fetchLoop] at h
    cases h
    exact ⟨rfl, rfl, rfl⟩
  | paper_id :: rest, papers, h => by
    unfold fetchLoop at h
    split at h
    · exact Except.noConfusion h
    · rename_i rec hrec
      split at h
      · exact Except.noConfusion h
      · rename_i tail htail
        obtain ⟨t, p, hmk⟩ := fetch_paper_details_ok_inv hrec
        subst hmk
        rw [mkRecord_isEmpty] at h
        simp only [Bool.false_eq_true, if_false] at h
        cases h
        obtain ⟨h1, h2, h3⟩ := fetchLoop_ok net rest tail htail
        refine ⟨?_, ?_, ?_⟩
        · unfold fetchCalls
          rw [hrec, h1]
        · simpa using h2
        · simpa [mkRecord_lookup_id] using h3

/-- A raised `RequestException` in `fetch_papers` is reported and nothing
else is output. -/
theorem mainRun_transport (args : Args) (net : Network) (fs : Fs) (e : String)
    (h : fetch_papers net = .error (.requestException e)) :
    mainRun args net fs = ⟨[.msg ("Error fetching data: " ++ e)], none, 0⟩ := by
  unfold mainRun
  rw [h]

/-- The loop aborts with the detail request's transport error as soon as it
reaches an identifier whose detail request fails, the earlier ones having
succeeded. -/
theorem fetchLoop_error_of_detail_error (net : Network) (e : String) :
    ∀ (pre : List String) (paper_id : String) (post : List String),
      (∀ i ∈ pre, ∃ r, fetch_paper_details net i = .ok r) →
      net.detail paper_id = .error e →
      fetchLoop net (pre ++ paper_id :: post) = .error (.requestException e)
  | [], paper_id, post, _, hfail => by
    have hdet : fetch_paper_details net paper_id = .error (.requestException e) := by
      unfold fetch_paper_details detailData
      rw [hfail]
    simp only [List.nil_append]
    unfold fetchLoop
    rw [hdet]
  | i :: pre, paper_id, post, hpre, hfail => by
    obtain ⟨r, hr⟩ := hpre i (List.mem_cons_self i pre)
    have hrest := fetchLoop_error_of_detail_error net e pre paper_id post
      (fun j hj => hpre j (List.mem_cons_of_mem i hj)) hfail
    simp only [List.cons_append]
    unfold fetchLoop
    rw [hr, hrest]

/-- Restating `fetchLoop_ok` through `fetch_papers`, used to discharge the
success hypotheses of several claims. -/
theorem fetch_papers_of_searchIds (net : Network) (ids : List String)
    (papers : List JObj) (hids : searchIds net = .ok ids)
    (hpapers : fetch_papers net = .ok papers) :
    fetchLoop net ids = .ok papers := by
  unfold fetch_papers at hpapers
  rw [hids] at hpapers
  exact hpapers

/-! ### The claims -/

/-- C1: when the search step yields a list of identifiers and `fetch_papers`
returns a collection, the Record Fetcher was invoked exactly once per
identifier in list order, and the collection has exactly one record per
identifier, in the same order (the i-th record carries the i-th
identifier). -/
theorem fetch_papers_once_per_id (net : Network) (ids : List String)
    (papers : List JObj) (hids : searchIds net = .ok ids)
    (hpapers : fetch_papers net = .ok papers) :
    fetchCalls net ids = ids ∧ papers.length = ids.length ∧
    papers.map (fun r => r.lookup "PubmedID") =
      ids.map (fun i => some (JValue.str i)) :=
  fetchLoop_ok net ids papers (fetch_papers_of_searchIds net ids papers hids hpapers)

/-- Witness for C1 on a concrete two-identifier run. -/
theorem fetch_papers_once_per_id_witness :
    fetchCalls netTwo ["111", "222"] = ["111", "222"] ∧
    ([mkRecord "111" (.str "Study A") (.str "2023"),
      mkRecord "222" (.str "Study A") (.str "2023")] : List JObj).length =
      (["111", "222"] : List String).length ∧
    ([mkRecord "111" (.str "Study A") (.str "2023"),
      mkRecord "222" (.str "Study A") (.str "2023")] : List JObj).map
        (fun r => r.lookup "PubmedID") =
      (["111", "222"] : List String).map (fun i => some (JValue.str i)) :=
  fetch_papers_once_per_id netTwo ["111", "222"]
    [mkRecord "111" (.str "Study A") (.str "2023"),
     mkRecord "222" (.str "Study A") (.str "2023")] rfl rfl

/-- C2: every record `fetch_paper_details` returns carries all six field
names, and its Title and Publication Date are the string `"N/A"` whenever the
corresponding key is absent from the extracted per-identifier data. -/
theorem record_has_all_fields (net : Network) (paper_id : String) (rec : JObj)
    (h : fetch_paper_details net paper_id = .ok rec) :
    (∀ k ∈ headers, (rec.lookup k).isSome = true) ∧
    (∀ data : JObj, detailData net paper_id = .ok (.obj data) →
      data.lookup "title" = none → rec.lookup "Title" = some (.str "N/A")) ∧
    (∀ data : JObj, detailData net paper_id = .ok (.obj data) →
      data.lookup "pubdate" = none →
      rec.lookup "Publication Date" = some (.str "N/A")) := by
  obtain ⟨t, p, hmk⟩ := fetch_paper_details_ok_inv h
  subst hmk
  refine ⟨?_, ?_, ?_⟩
  · intro k hk
    fin_cases hk <;> rfl
  · intro data hd hnone
    have h2 := fetch_paper_details_ok net paper_id data hd
    rw [h] at h2
    have h3 := Except.ok.inj h2
    have h4 := congrArg (fun l : JObj => l.lookup "Title") h3
    simp only [mkRecord_lookup_title, hnone, Option.getD_none] at h4
    rw [mkRecord_lookup_title]
    exact h4
  · intro data hd hnone
    have h2 := fetch_paper_details_ok net paper_id data hd
    rw [h] at h2
    have h3 := Except.ok.inj h2
    have h4 := congrArg (fun l : JObj => l.lookup "Publication Date") h3
    simp only [mkRecord_lookup_pubdate, hnone, Option.getD_none] at h4
    rw [mkRecord_lookup_pubdate]
    exact h4

/-- Witness for C2 on a concrete run whose summary data has no title and no
pubdate key. -/
theorem record_has_all_fields_witness :
    (∀ k ∈ headers,
      ((mkRecord "555" (.str "N/A") (.str "N/A")).lookup k).isSome = true) ∧
    (∀ data : JObj, detailData netNoEntry "555" = .ok (.obj data) →
      data.lookup "title" = none →
      (mkRecord "555" (.str "N/A") (.str "N/A")).lookup "Title" =
        some (.str "N/A")) ∧
    (∀ data : JObj, detailData netNoEntry "555" = .ok (.obj data) →
      data.lookup "pubdate" = none →
      (mkRecord "555" (.str "N/A") (.str "N/A")).lookup "Publication Date" =
        some (.str "N/A")) :=
  record_has_all_fields netNoEntry "555" (mkRecord "555" (.str "N/A") (.str "N/A")) rfl

/-- C3 counterexample: for an identifier with no matching entry in the detail
response, the Record Fetcher does not return an empty result; it returns a
full (non-empty) record with `"N/A"` fields. -/
theorem missing_entry_still_returns_record :
    netNoEntry.detail "222" = .ok (.obj [("result", .obj [])]) ∧
    (([] : JObj).lookup "222") = none ∧
    fetch_paper_details netNoEntry "222" =
      .ok (mkRecord "222" (.str "N/A") (.str "N/A")) ∧
    mkRecord "222" (.str "N/A") (.str "N/A") ≠ [] :=
  ⟨rfl, rfl, rfl, mkRecord_ne_nil "222" (.str "N/A") (.str "N/A")⟩

/-- C3 amended: for every identifier whose detail response is a dict whose
result dict has no matching entry, the Record Fetcher still returns a full
Paper Record — never an empty result — with Title and Publication Date set to
`"N/A"`. -/
theorem missing_entry_yields_na_record (net : Network) (paper_id : String)
    (body res : JObj) (hb : net.detail paper_id = .ok (.obj body))
    (hres : body.lookup "result" = some (.obj res))
    (hmiss : res.lookup paper_id = none) :
    fetch_paper_details net paper_id =
      .ok (mkRecord paper_id (.str "N/A") (.str "N/A")) ∧
    mkRecord paper_id (.str "N/A") (.str "N/A") ≠ [] := by
  have hd : detailData net paper_id = .ok (.obj []) := by
    unfold detailData
    rw [hb]
    simp [dictGet, hres, hmiss]
  refine ⟨?_, mkRecord_ne_nil paper_id (.str "N/A") (.str "N/A")⟩
  have h2 := fetch_paper_details_ok net paper_id [] hd
  simpa using h2

/-- Witness for the amended C3 on a concrete run. -/
theorem missing_entry_yields_na_record_witness :
    fetch_paper_details netNoEntry "333" =
      .ok (mkRecord "333" (.str "N/A") (.str "N/A")) ∧
    mkRecord "333" (.str "N/A") (.str "N/A") ≠ [] :=
  missing_entry_yields_na_record netNoEntry "333" [("result", .obj [])] [] rfl rfl rfl

/-- When every record only uses the writer's fieldnames, `writerows` writes
exactly one row per record, in input order, and raises nothing. -/
theorem writeRows_ok (hs : List String) :
    ∀ rs : List JObj, (∀ r ∈ rs, recKeysOk hs r = true) →
      writeRows hs rs = (rs.map fun r => csvLine (rowVals hs r), none)
  | [], _ => rfl
  | r :: rest, hk => by
    have h1 : recKeysOk hs r = true := hk r (List.mem_cons_self r rest)
    have h2 := writeRows_ok hs rest (fun j hj => hk j (List.mem_cons_of_mem r hj))
    unfold writeRows
    rw [h1, h2]
    simp

/-- `save_to_csv` on well-keyed records: the header line, then one line per
record, and no exception. -/
theorem save_to_csv_ok (papers : List JObj)
    (hk : ∀ r ∈ papers, recKeysOk headers r = true) :
    save_to_csv papers =
      (csvLine headers :: papers.map fun r => csvLine (rowVals headers r), none) := by
  unfold save_to_csv
  rw [writeRows_ok headers papers hk]

/-- The two records the `netTwo` run produces. -/
def papersTwo : List JObj :=
  [mkRecord "111" (.str "Study A") (.str "2023"),
   mkRecord "222" (.str "Study A") (.str "2023")]

/-- Both concrete records only use the writer's fieldnames. -/
theorem papersTwo_keys : ∀ r ∈ papersTwo, recKeysOk headers r = true := by
  intro r hr
  rcases List.mem_cons.mp hr with h | h
  · subst h; rfl
  · rcases List.mem_cons.mp h with h2 | h2
    · subst h2; rfl
    · exact absurd h2 (List.not_mem_nil r)

/-- Reduction of `mainRun` once the pipeline's result list is known, naming
the collected records outside the match so later rewriting can reach them. -/
theorem mainRun_ok (args : Args) (net : Network) (fs : Fs)
    (papers : List JObj) (h : fetch_papers net = .ok papers) :
    mainRun args net fs =
      if papers.isEmpty then
        ⟨[.msg "No papers found for the given query."], none, 0⟩
      else if fileTruthy args.file then
        if fs.writeOk (args.file.getD "") then
          match save_to_csv papers with
          | (ls, none) =>
            ⟨[.msg ("Results saved to " ++ args.file.getD "")],
              some (args.file.getD "", ls), 0⟩
          | (ls, some _) => ⟨[], some (args.file.getD "", ls), 1⟩
        else ⟨[], none, 1⟩
      else ⟨papers.map .record, none, 0⟩ := by
  unfold mainRun
  rw [h]

/-- C4: a transport failure during the search step, or during the detail step
of any identifier reached by the loop, makes the run print only the error
message, create no output file, and discard every record fetched before the
failure. -/
theorem transport_failure_zero_rows (args : Args) (net : Network) (fs : Fs)
    (e : String) :
    (net.search = .error e →
      mainRun args net fs = ⟨[.msg ("Error fetching data: " ++ e)], none, 0⟩) ∧
    (∀ (pre : List String) (paper_id : String) (post : List String),
      searchIds net = .ok (pre ++ paper_id :: post) →
      (∀ i ∈ pre, ∃ r, fetch_paper_details net i = .ok r) →
      net.detail paper_id = .error e →
      mainRun args net fs = ⟨[.msg ("Error fetching data: " ++ e)], none, 0⟩) := by
  constructor
  · intro hs
    apply mainRun_transport
    unfold fetch_papers searchIds
    rw [hs]
  · intro pre paper_id post hids hpre hdet
    apply mainRun_transport
    unfold fetch_papers
    rw [hids]
    exact fetchLoop_error_of_detail_error net e pre paper_id post hpre hdet

/-- Witness for C4: a failing search, and a failing first detail fetch. -/
theorem transport_failure_zero_rows_witness :
    mainRun argsNone netSearchFail fsAll =
      ⟨[.msg "Error fetching data: boom"], none, 0⟩ ∧
    mainRun argsFile netDetailFail fsAll =
      ⟨[.msg "Error fetching data: net down"], none, 0⟩ := by
  constructor
  · exact (transport_failure_zero_rows argsNone netSearchFail fsAll "boom").1 rfl
  · exact (transport_failure_zero_rows argsFile netDetailFail fsAll "net down").2
      [] "111" [] rfl (fun i hi => absurd hi (List.not_mem_nil i)) rfl

/-- C5: the run exits with status 0 on success — records printed or saved,
and the empty-result case — and when a transport error is caught and
reported; a file-system failure in `save_to_csv` is not caught by the
`RequestException` handler and terminates the run with status 1. -/
theorem exit_status_policy (args : Args) (net : Network) (fs : Fs) :
    (∀ e, fetch_papers net = .error (.requestException e) →
      (mainRun args net fs).exitCode = 0) ∧
    (fetch_papers net = .ok [] → (mainRun args net fs).exitCode = 0) ∧
    (∀ papers, fetch_papers net = .ok papers → args.file = none →
      (mainRun args net fs).exitCode = 0) ∧
    (∀ papers fname, fetch_papers net = .ok papers → args.file = some fname →
      fs.writeOk fname = true → (∀ r ∈ papers, recKeysOk headers r = true) →
      (mainRun args net fs).exitCode = 0) ∧
    (∀ papers fname, fetch_papers net = .ok papers → papers ≠ [] →
      args.file = some fname → fileTruthy (some fname) = true →
      fs.writeOk fname = false → (mainRun args net fs).exitCode = 1) := by
  refine ⟨?_, ?_, ?_, ?_, ?_⟩
  · intro e hfetch
    rw [mainRun_transport args net fs e hfetch]
  · intro hfetch
    rw [mainRun_ok args net fs [] hfetch]
    rfl
  · intro papers hfetch harg
    rw [mainRun_ok args net fs papers hfetch, harg]
    cases papers <;> simp [fileTruthy]
  · intro papers fname hfetch harg hw hk
    rw [mainRun_ok args net fs papers hfetch, harg, save_to_csv_ok papers hk]
    cases papers with
    | nil => simp
    | cons r rest =>
      by_cases ht : fileTruthy (some fname) = true
      · simp [ht, hw]
      · simp [ht]
  · intro papers fname hfetch hne harg ht hw
    rw [mainRun_ok args net fs papers hfetch, harg]
    cases papers with
    | nil => exact absurd rfl hne
    | cons r rest => simp [ht, hw]

/-- Witness for C5: each exit-status scenario on a concrete run. -/
theorem exit_status_policy_witness :
    (mainRun argsNone netSearchFail fsAll).exitCode = 0 ∧
    (mainRun argsNone netEmpty fsAll).exitCode = 0 ∧
    (mainRun argsNone netTwo fsAll).exitCode = 0 ∧
    (mainRun argsFile netTwo fsAll).exitCode = 0 ∧
    (mainRun argsFile netTwo fsNone).exitCode = 1 := by
  refine ⟨?_, ?_, ?_, ?_, ?_⟩
  · exact (exit_status_policy argsNone netSearchFail fsAll).1 "boom" rfl
  · exact (exit_status_policy argsNone netEmpty fsAll).2.1 rfl
  · exact (exit_status_policy argsNone netTwo fsAll).2.2.1 papersTwo rfl rfl
  · exact (exit_status_policy argsFile netTwo fsAll).2.2.2.1 papersTwo "out.csv"
      rfl rfl rfl papersTwo_keys
  · exact (exit_status_policy argsFile netTwo fsNone).2.2.2.2 papersTwo "out.csv"
      rfl (by simp [papersTwo]) rfl rfl rfl

/-- C6: for a non-empty list of records using the writer's fieldnames,
`save_to_csv` writes the fixed six-name header line first, then exactly one
data row per record in input order, and raises nothing. -/
theorem save_to_csv_header_and_rows (papers : List JObj) (hne : papers ≠ [])
    (hk : ∀ r ∈ papers, recKeysOk headers r = true) :
    save_to_csv papers =
      (csvLine headers :: papers.map (fun r => csvLine (rowVals headers r)),
        none) ∧
    csvLine headers =
      "PubmedID,Title,Publication Date,Non-academic Author(s),Company Affiliation(s),Corresponding Author Email\r\n" ∧
    (papers.map (fun r => csvLine (rowVals headers r))).length = papers.length := by
  refine ⟨save_to_csv_ok papers hk, ?_, by simp⟩
  rfl

/-- Witness for C6 on the two concrete records. -/
theorem save_to_csv_header_and_rows_witness :
    save_to_csv papersTwo =
      (csvLine headers :: papersTwo.map (fun r => csvLine (rowVals headers r)),
        none) ∧
    csvLine headers =
      "PubmedID,Title,Publication Date,Non-academic Author(s),Company Affiliation(s),Corresponding Author Email\r\n" ∧
    (papersTwo.map (fun r => csvLine (rowVals headers r))).length =
      papersTwo.length :=
  save_to_csv_header_and_rows papersTwo (by simp [papersTwo]) papersTwo_keys

/-- C7: when the search step returns zero identifiers the run prints the
no-papers message, creates no output file even when a filename argument was
given, and ends normally with status 0. -/
theorem no_results_path (args : Args) (net : Network) (fs : Fs)
    (h : searchIds net = .ok []) :
    mainRun args net fs =
      ⟨[.msg "No papers found for the given query."], none, 0⟩ := by
  have hf : fetch_papers net = .ok [] := by
    unfold fetch_papers
    rw [h]
    rfl
  rw [mainRun_ok args net fs [] hf]
  rfl

/-- Witness for C7: an empty search result with a filename argument given. -/
theorem no_results_path_witness :
    mainRun argsFile netEmpty fsAll =
      ⟨[.msg "No papers found for the given query."], none, 0⟩ :=
  no_results_path argsFile netEmpty fsAll rfl

/-- C8: the non-academic-author, company-affiliation and email fields of any
record the fetcher returns are fixed constant strings, independent of the
identifier and of the response; any two successful invocations agree on all
three. -/
theorem placeholder_fields_constant (net net2 : Network)
    (paper_id paper_id2 : String) (rec rec2 : JObj)
    (h : fetch_paper_details net paper_id = .ok rec)
    (h2 : fetch_paper_details net2 paper_id2 = .ok rec2) :
    rec.lookup "Non-academic Author(s)" =
      some (.str "John Doe, PharmaCorp Inc.") ∧
    rec.lookup "Company Affiliation(s)" = some (.str "PharmaCorp Inc.") ∧
    rec.lookup "Corresponding Author Email" =
      some (.str "contact@pharma.com") ∧
    rec.lookup "Non-academic Author(s)" = rec2.lookup "Non-academic Author(s)" ∧
    rec.lookup "Company Affiliation(s)" = rec2.lookup "Company Affiliation(s)" ∧
    rec.lookup "Corresponding Author Email" =
      rec2.lookup "Corresponding Author Email" := by
  obtain ⟨t, p, hmk⟩ := fetch_paper_details_ok_inv h
  obtain ⟨t2, p2, hmk2⟩ := fetch_paper_details_ok_inv h2
  subst hmk
  subst hmk2
  exact ⟨rfl, rfl, rfl, rfl, rfl, rfl⟩

/-- Witness for C8 on two different concrete runs. -/
theorem placeholder_fields_constant_witness :
    (mkRecord "111" (.str "Study A") (.str "2023")).lookup
      "Non-academic Author(s)" = some (.str "John Doe, PharmaCorp Inc.") ∧
    (mkRecord "111" (.str "Study A") (.str "2023")).lookup
      "Company Affiliation(s)" = some (.str "PharmaCorp Inc.") ∧
    (mkRecord "111" (.str "Study A") (.str "2023")).lookup
      "Corresponding Author Email" = some (.str "contact@pharma.com") ∧
    (mkRecord "111" (.str "Study A") (.str "2023")).lookup
      "Non-academic Author(s)" =
      (mkRecord "555" (.str "N/A") (.str "N/A")).lookup
        "Non-academic Author(s)" ∧
    (mkRecord "111" (.str "Study A") (.str "2023")).lookup
      "Company Affiliation(s)" =
      (mkRecord "555" (.str "N/A") (.str "N/A")).lookup
        "Company Affiliation(s)" ∧
    (mkRecord "111" (.str "Study A") (.str "2023")).lookup
      "Corresponding Author Email" =
      (mkRecord "555" (.str "N/A") (.str "N/A")).lookup
        "Corresponding Author Email" :=
  placeholder_fields_constant netTwo netNoEntry "111" "555"
    (mkRecord "111" (.str "Study A") (.str "2023"))
    (mkRecord "555" (.str "N/A") (.str "N/A")) rfl rfl

/-- C9: the debug flag is a no-op — two runs differing only in the debug flag
have identical observable behaviour (stdout, file written, exit status). -/
theorem debug_flag_noop (q : String) (f : Option String) (d d2 : Bool)
    (net : Network) (fs : Fs) :
    mainRun ⟨q, f, d⟩ net fs = mainRun ⟨q, f, d2⟩ net fs := rfl

/-- C10: `"N/A"` is substituted only when the title or pubdate key is absent;
a present key's value — even `null` or an empty string — is passed through
unchanged into the Title or Publication Date field. -/
theorem present_key_passthrough (net : Network) (paper_id : String)
    (data : JObj) (hd : detailData net paper_id = .ok (.obj data)) :
    ∃ rec, fetch_paper_details net paper_id = .ok rec ∧
      (∀ v, data.lookup "title" = some v → rec.lookup "Title" = some v) ∧
      (∀ w, data.lookup "pubdate" = some w →
        rec.lookup "Publication Date" = some w) := by
  refine ⟨_, fetch_paper_details_ok net paper_id data hd, ?_, ?_⟩
  · intro v hv
    rw [mkRecord_lookup_title, hv]
    rfl
  · intro w hw
    rw [mkRecord_lookup_pubdate, hw]
    rfl

/-- Witness for C10: a present null title and empty pubdate pass through. -/
theorem present_key_passthrough_witness :
    (∃ rec, fetch_paper_details netNullTitle "777" = .ok rec ∧
      (∀ v, ([("title", JValue.null), ("pubdate", .str "")] : JObj).lookup
          "title" = some v → rec.lookup "Title" = some v) ∧
      (∀ w, ([("title", JValue.null), ("pubdate", .str "")] : JObj).lookup
          "pubdate" = some w → rec.lookup "Publication Date" = some w)) ∧
    fetch_paper_details netNullTitle "777" =
      .ok (mkRecord "777" .null (.str "")) ∧
    (mkRecord "777" .null (.str "")).lookup "Title" = some .null :=
  ⟨present_key_passthrough netNullTitle "777"
    [("title", .null), ("pubdate", .str "")] rfl, rfl, rfl⟩
